import Mathlib

/-!
Verification of the metadata and catalog-resolution layer of the cnosdb query
server, embedded from src/query_server/query/src/metadata.rs.  The collaborator
types that metadata.rs imports from sibling crates (the catalog registry, the
database object, the schema types, the constants) are not part of the provided
sources; they are modelled from the specification, and each such definition is
marked accordingly in its doc comment.
-/

namespace CnosdbMeta

/-- Modelled from the spec: the compile-time constant DEFAULT_CATALOG declared
in the spi crate (not under src/); its value is taken from §8 scenario S6. -/
def DEFAULT_CATALOG : String := "default_catalog"

/-- Modelled from the spec: the compile-time constant DEFAULT_DATABASE declared
in the spi crate (not under src/); its value is taken from §8 scenario S1. -/
def DEFAULT_DATABASE : String := "public"

/-- Modelled from the spec: the storage-engine-defined database descriptor
(models crate, not under src/), keyed by the database name. -/
structure DatabaseSchema where
  name : String

/-- DatabaseSchema::new(name). Modelled from the spec. -/
def DatabaseSchema.new (name : String) : DatabaseSchema := ⟨name⟩

/-- Modelled from the spec: the storage-engine handle (§6).  The engine owns
the persistent database schemas that pre-exist a facade; other engine
interactions of metadata.rs (alter_database, per-table column persistence) do
not decide any claim and are not modelled. -/
structure Engine where
  databases : List (String × DatabaseSchema)

/-- Column semantic role (§3: tag / time / field). Modelled from the spec. -/
inductive ColumnRole where
  | tag
  | time
  | field
deriving BEq, DecidableEq

/-- Modelled from the spec: a column has a name, a data type and a role (§3). -/
structure TableColumn where
  name : String
  data_type : String
  role : ColumnRole

/-- Arrow-compatible column schema of an external table. Modelled from the
spec: only the field list is relevant at this layer. -/
structure ArrowSchema where
  fields : List String

/-- File-format listing options of an external table (datafusion type,
abstracted to an opaque tag). -/
structure ListingOptions where
  file_format : String

/-- A parsed listing-table URL (datafusion type, abstracted). -/
structure ListingTableUrl where
  url : String

/-- The planner error type.  Only the Plan variant is built by this layer;
External stands for every other datafusion error variant. -/
inductive DataFusionError where
  | Plan (msg : String)
  | External (msg : String)

/-- Native (TsKv) table schema (models crate, not under src/).  Modelled from
the spec: storage-engine descriptor with its column list (§3). -/
structure TsKvTableSchema where
  db : String
  name : String
  columns : List TableColumn

/-- External listing table schema (models crate, not under src/).  Modelled
from the spec: location URI, file-format options and an arrow-compatible
column schema (§3).  The fallible derivation of listing options from the
format fields is opaque at this layer, so its result is carried as a field. -/
structure ExternalTableSchema where
  db : String
  name : String
  location : String
  options_result : Except DataFusionError ListingOptions
  schema : ArrowSchema

/-- ExternalTableSchema::table_options(): derive the listing options.
Modelled from the spec: derivation failures surface as planner errors. -/
def ExternalTableSchema.table_options (s : ExternalTableSchema) :
    Except DataFusionError ListingOptions :=
  s.options_result

/-- The tagged table-schema variant of the models crate (§3): native table or
external listing table. -/
inductive TableSchema where
  | TsKvTableSchema (schema : TsKvTableSchema)
  | ExternalTableSchema (schema : ExternalTableSchema)

/-- The error kinds of the spi catalog contract (§7). -/
inductive MetadataError where
  | DatabaseAlreadyExists (database_name : String)
  | DatabaseNotExists (database_name : String)
  | TableNotExists (table_name : String)
  | ColumnAlreadyExists (table_name : String) (column_name : String)
  | ColumnNotExists (table_name : String) (column_name : String)
  | InvalidColumnDrop (reason : String)
  | External (message : String)

/-- datafusion TableReference: a bare table, a database-qualified table, or a
fully qualified reference.  The schemaTable constructor corresponds to the
two-part form db.table. -/
inductive TableReference where
  | bare (table : String)
  | schemaTable (schema : String) (table : String)
  | full (catalog : String) (schema : String) (table : String)

/-- datafusion ResolvedTableReference: a fully qualified triple. -/
structure ResolvedTableReference where
  catalog : String
  schema : String
  table : String

/-- TableReference::resolve: fill the missing components from the current
context.  Pure shape normalization, no lookups (§4.1). -/
def TableReference.resolve (r : TableReference) (default_catalog : String)
    (default_schema : String) : ResolvedTableReference :=
  match r with
  | .bare t => ⟨default_catalog, default_schema, t⟩
  | .schemaTable s t => ⟨default_catalog, s, t⟩
  | .full c s t => ⟨c, s, t⟩

/-- TableReference::table(): the table component of the reference. -/
def TableReference.tableName : TableReference → String
  | .bare t => t
  | .schemaTable _ t => t
  | .full _ _ t => t

/-- Whether the reference carries an explicit catalog component. -/
def TableReference.hasCatalog : TableReference → Bool
  | .full _ _ _ => true
  | _ => false

/-- Split a character list at every dot, as str::split('.') does. -/
def splitDots : List Char → List (List Char)
  | [] => [[]]
  | c :: rest =>
    if c = '.' then [] :: splitDots rest
    else
      match splitDots rest with
      | [] => [[c]]
      | h :: t => (c :: h) :: t

/-- datafusion's From<&str> for TableReference: split on dots; one part is a
bare table, two parts are db.table, three parts are catalog.db.table, and any
other shape is treated as a bare table name. -/
def TableReference.fromString (s : String) : TableReference :=
  match (splitDots s.toList).map (fun cs => String.mk cs) with
  | [t] => .bare t
  | [d, t] => .schemaTable d t
  | [c, d, t] => .full c d t
  | _ => .bare s

/-- A scalar UDF descriptor (opaque, §3). -/
structure ScalarUDF where
  name : String

/-- An aggregate UDF descriptor (opaque, §3). -/
structure AggregateUDF where
  name : String

/-- Modelled from the spec: the function registry handle (§6). -/
structure FuncMetaManager where
  udfs : List (String × ScalarUDF)
  udafs : List (String × AggregateUDF)

/-- Modelled from the spec: the per-database object of §4.3 (its crate file
catalog.rs is not under src/): a table-name map together with the engine
handle and the database descriptor. -/
structure Database where
  name : String
  engine : Engine
  db_schema : DatabaseSchema
  tables : List (String × TableSchema)

/-- Database::new(name, engine, database). Modelled from the spec: a freshly
created database contains no tables. -/
def Database.new (name : String) (engine : Engine) (database : DatabaseSchema) :
    Database :=
  { name := name, engine := engine, db_schema := database, tables := [] }

/-- get_table(name): schema or miss (§4.3). Modelled from the spec. -/
def Database.table (db : Database) (name : String) : Option TableSchema :=
  (db.tables.find? (fun p => p.1 == name)).map (fun p => p.2)

/-- register_table(name, schema): silent upsert (§4.3). Modelled from the
spec. -/
def Database.register_table (db : Database) (name : String)
    (schema : TableSchema) : Database :=
  { db with tables := (name, schema) :: db.tables.filter (fun p => p.1 != name) }

/-- deregister_table(name): remove the entry or TableNotExists (§4.3).
Modelled from the spec. -/
def Database.deregister_table (db : Database) (name : String) :
    Except MetadataError Database :=
  match db.table name with
  | none => .error (.TableNotExists name)
  | some _ => .ok { db with tables := db.tables.filter (fun p => p.1 != name) }

/-- table_add_column (§4.3). Modelled from the spec: TableNotExists on a
missing table, ColumnAlreadyExists on a name collision, otherwise append.
Engine persistence always succeeds in this model, and column mutation of an
external listing table is not specified and surfaces as an External error. -/
def Database.table_add_column (db : Database) (table : String)
    (column : TableColumn) : Except MetadataError Database :=
  match db.table table with
  | none => .error (.TableNotExists table)
  | some (.TsKvTableSchema s) =>
    if (s.columns.find? (fun c => c.name == column.name)).isSome then
      .error (.ColumnAlreadyExists table column.name)
    else
      .ok (db.register_table table
        (.TsKvTableSchema { s with columns := s.columns ++ [column] }))
  | some (.ExternalTableSchema _) =>
    .error (.External "column mutation is not supported for external tables")

/-- table_alter_column (§4.3). Modelled from the spec: TableNotExists or
ColumnNotExists, otherwise replace the column descriptor.  The widening type
policy is enforced by the engine and is outside this model. -/
def Database.table_alter_column (db : Database) (table : String)
    (column_name : String) (new_column : TableColumn) :
    Except MetadataError Database :=
  match db.table table with
  | none => .error (.TableNotExists table)
  | some (.TsKvTableSchema s) =>
    if (s.columns.find? (fun c => c.name == column_name)).isSome then
      let ncols := s.columns.map
        (fun c => if c.name == column_name then new_column else c)
      .ok (db.register_table table (.TsKvTableSchema { s with columns := ncols }))
    else
      .error (.ColumnNotExists table column_name)
  | some (.ExternalTableSchema _) =>
    .error (.External "column mutation is not supported for external tables")

/-- table_drop_column (§4.3). Modelled from the spec: TableNotExists or
ColumnNotExists; dropping the time column or the last remaining field column
is rejected as InvalidColumnDrop; otherwise the column is removed. -/
def Database.table_drop_column (db : Database) (table : String)
    (column_name : String) : Except MetadataError Database :=
  match db.table table with
  | none => .error (.TableNotExists table)
  | some (.TsKvTableSchema s) =>
    match s.columns.find? (fun c => c.name == column_name) with
    | none => .error (.ColumnNotExists table column_name)
    | some col =>
      if col.role == ColumnRole.time then
        .error (.InvalidColumnDrop "cannot drop the time column")
      else if col.role == ColumnRole.field &&
          (s.columns.filter (fun c => c.role == ColumnRole.field)).length == 1 then
        .error (.InvalidColumnDrop "cannot drop the last field column")
      else
        let ncols := s.columns.filter (fun c => c.name != column_name)
        .ok (db.register_table table (.TsKvTableSchema { s with columns := ncols }))
  | some (.ExternalTableSchema _) =>
    .error (.External "column mutation is not supported for external tables")

/-- table_names (§4.3). Modelled from the spec. -/
def Database.table_names (db : Database) : List String :=
  db.tables.map (fun p => p.1)

/-- Modelled from the spec: the catalog registry of §4.2 (its crate file
catalog.rs is not under src/): an in-memory map from database name to
Database object. -/
structure UserCatalog where
  schemas : List (String × Database)

/-- UserCatalog::new(engine). Modelled from the spec: the initialization path
registers the databases that pre-exist in the storage engine (§3 invariant 1). -/
def UserCatalog.new (engine : Engine) : UserCatalog :=
  ⟨engine.databases.map (fun p => (p.1, Database.new p.1 engine p.2))⟩

/-- get_database(name): object or miss (§4.2). Modelled from the spec. -/
def UserCatalog.schema (c : UserCatalog) (name : String) : Option Database :=
  (c.schemas.find? (fun p => p.1 == name)).map (fun p => p.2)

/-- register_database (§4.2). Modelled from the spec: DatabaseAlreadyExists if
present, otherwise insert. -/
def UserCatalog.register_schema (c : UserCatalog) (name : String)
    (db : Database) : Except MetadataError UserCatalog :=
  if (c.schemas.find? (fun p => p.1 == name)).isSome then
    .error (.DatabaseAlreadyExists name)
  else
    .ok ⟨(name, db) :: c.schemas⟩

/-- deregister_database (§4.2). Modelled from the spec: DatabaseNotExists if
absent, otherwise remove together with all contained tables. -/
def UserCatalog.deregister_schema (c : UserCatalog) (name : String) :
    Except MetadataError UserCatalog :=
  if (c.schemas.find? (fun p => p.1 == name)).isSome then
    .ok ⟨c.schemas.filter (fun p => p.1 != name)⟩
  else
    .error (.DatabaseNotExists name)

/-- Write an updated Database object back into the registry.  In the source
the Database behind the map is shared and mutated in place; the pure embedding
makes that write-back explicit. -/
def UserCatalog.update (c : UserCatalog) (name : String) (db : Database) :
    UserCatalog :=
  ⟨c.schemas.map (fun p => if p.1 == name then (name, db) else p)⟩

/-- The local metadata facade of metadata.rs: the current (catalog, database)
context plus the shared engine, catalog registry and function registry
handles. -/
structure LocalCatalogMeta where
  catalog_name : String
  database_name : String
  engine : Engine
  catalog : UserCatalog
  func_manager : FuncMetaManager

/-- schema_name(): the current database context string. -/
def LocalCatalogMeta.schema_name (m : LocalCatalogMeta) : String :=
  m.database_name

/-- with_catalog(name): clone with the catalog context overridden. -/
def LocalCatalogMeta.with_catalog (m : LocalCatalogMeta) (c : String) :
    LocalCatalogMeta :=
  { m with catalog_name := c }

/-- with_database(name): clone with the database context overridden. -/
def LocalCatalogMeta.with_database (m : LocalCatalogMeta) (d : String) :
    LocalCatalogMeta :=
  { m with database_name := d }

/-- The resolution step shared by the facade operations: resolve a reference
against the current context strings. -/
def LocalCatalogMeta.resolve_ref (m : LocalCatalogMeta) (t : TableReference) :
    ResolvedTableReference :=
  t.resolve m.catalog_name m.schema_name

/-- table(ref) of metadata.rs: resolve, look the database up by the resolved
schema component (the catalog component is not used as a lookup key), then
look the table up by the resolved table component. -/
def LocalCatalogMeta.table (m : LocalCatalogMeta) (t : TableReference) :
    Except MetadataError TableSchema :=
  let name := m.resolve_ref t
  match m.catalog.schema name.schema with
  | none => .error (.DatabaseNotExists name.schema)
  | some db =>
    match db.table name.table with
    | none => .error (.TableNotExists name.table)
    | some s => .ok s

/-- create_database(name, database) of metadata.rs: build a Database object
and register it. -/
def LocalCatalogMeta.create_database (m : LocalCatalogMeta) (name : String)
    (database : DatabaseSchema) : Except MetadataError LocalCatalogMeta :=
  let user_schema := Database.new name m.engine database
  (m.catalog.register_schema name user_schema).map
    (fun c => { m with catalog := c })

/-- create_table(name, table_schema) of metadata.rs: resolve the reference,
find the resolved database, and register the table under the reference's
table component. -/
def LocalCatalogMeta.create_table (m : LocalCatalogMeta) (name : String)
    (table_schema : TableSchema) : Except MetadataError LocalCatalogMeta :=
  let table := TableReference.fromString name
  let table_ref := table.resolve m.catalog_name m.database_name
  match m.catalog.schema table_ref.schema with
  | none => .error (.DatabaseNotExists table_ref.schema)
  | some db =>
    let c2 := m.catalog.update table_ref.schema
      (db.register_table table.tableName table_schema)
    .ok { m with catalog := c2 }

/-- drop_table(name) of metadata.rs: resolve, find the resolved database, and
deregister the resolved table. -/
def LocalCatalogMeta.drop_table (m : LocalCatalogMeta) (name : String) :
    Except MetadataError LocalCatalogMeta :=
  let table := TableReference.fromString name
  let nm := table.resolve m.catalog_name m.database_name
  match m.catalog.schema nm.schema with
  | none => .error (.DatabaseNotExists nm.schema)
  | some db =>
    (db.deregister_table nm.table).map
      (fun db2 => { m with catalog := m.catalog.update nm.schema db2 })

/-- drop_database(name) of metadata.rs: deregister the database. -/
def LocalCatalogMeta.drop_database (m : LocalCatalogMeta) (name : String) :
    Except MetadataError LocalCatalogMeta :=
  (m.catalog.deregister_schema name).map (fun c => { m with catalog := c })

/-- alter_table_add_column of metadata.rs: resolve, find the resolved
database, and add the column to the table named by the resolved table
component (table_ref.table). -/
def LocalCatalogMeta.alter_table_add_column (m : LocalCatalogMeta)
    (table_name : String) (column : TableColumn) :
    Except MetadataError LocalCatalogMeta :=
  let table_ref := (TableReference.fromString table_name).resolve
    m.catalog_name m.database_name
  match m.catalog.schema table_ref.schema with
  | none => .error (.DatabaseNotExists table_ref.schema)
  | some db =>
    (db.table_add_column table_ref.table column).map
      (fun db2 => { m with catalog := m.catalog.update table_ref.schema db2 })

/-- alter_table_alter_column of metadata.rs: resolve, find the resolved
database, and alter the column of the table named by the resolved table
component (table_ref.table). -/
def LocalCatalogMeta.alter_table_alter_column (m : LocalCatalogMeta)
    (table_name : String) (column_name : String) (new_column : TableColumn) :
    Except MetadataError LocalCatalogMeta :=
  let table_ref := (TableReference.fromString table_name).resolve
    m.catalog_name m.database_name
  match m.catalog.schema table_ref.schema with
  | none => .error (.DatabaseNotExists table_ref.schema)
  | some db =>
    (db.table_alter_column table_ref.table column_name new_column).map
      (fun db2 => { m with catalog := m.catalog.update table_ref.schema db2 })

/-- alter_table_drop_column of metadata.rs.  Note: unlike the add and alter
siblings, the source passes the original unresolved table_name string, not
table_ref.table, to the database-level drop. -/
def LocalCatalogMeta.alter_table_drop_column (m : LocalCatalogMeta)
    (table_name : String) (column_name : String) :
    Except MetadataError LocalCatalogMeta :=
  let table_ref := (TableReference.fromString table_name).resolve
    m.catalog_name m.database_name
  match m.catalog.schema table_ref.schema with
  | none => .error (.DatabaseNotExists table_ref.schema)
  | some db =>
    (db.table_drop_column table_name column_name).map
      (fun db2 => { m with catalog := m.catalog.update table_ref.schema db2 })

/-- The facade built inside new_with_default before the bootstrap
create_database call: default context, fresh registry over the engine. -/
def LocalCatalogMeta.initial (engine : Engine) (func_manager : FuncMetaManager) :
    LocalCatalogMeta :=
  { catalog_name := DEFAULT_CATALOG
    database_name := DEFAULT_DATABASE
    engine := engine
    catalog := UserCatalog.new engine
    func_manager := func_manager }

/-- new_with_default of metadata.rs: build the facade with the default
context, attempt to create the default database, swallow a
DatabaseAlreadyExists failure and propagate every other failure. -/
def LocalCatalogMeta.new_with_default (engine : Engine)
    (func_manager : FuncMetaManager) : Except MetadataError LocalCatalogMeta :=
  let meta := LocalCatalogMeta.initial engine func_manager
  match meta.create_database meta.database_name
      (DatabaseSchema.new meta.database_name) with
  | .ok meta2 => .ok meta2
  | .error (.DatabaseAlreadyExists _) => .ok meta
  | .error e => .error e

/-- The facades the MetadataProvider can hold behind its MetaDataRef: the
concrete LocalCatalogMeta of this file, or any other implementation of the
spi MetaData trait, embedded as a record of the trait methods the adapter
calls. -/
structure OtherMeta where
  table_fn : TableReference → Except MetadataError TableSchema
  catalog_name : String
  schema_name : String

/-- A dynamic MetaData trait object. -/
inductive MetaDataObj where
  | localMeta (m : LocalCatalogMeta)
  | otherMeta (o : OtherMeta)

/-- Dispatch of the trait method table(ref). -/
def MetaDataObj.table : MetaDataObj → TableReference →
    Except MetadataError TableSchema
  | .localMeta m, r => m.table r
  | .otherMeta o, r => o.table_fn r

/-- Dispatch of the trait method catalog_name(). -/
def MetaDataObj.catalog_name : MetaDataObj → String
  | .localMeta m => m.catalog_name
  | .otherMeta o => o.catalog_name

/-- Dispatch of the trait method schema_name(). -/
def MetaDataObj.schema_name : MetaDataObj → String
  | .localMeta m => m.schema_name
  | .otherMeta o => o.schema_name

/-- as_any().downcast_ref::<LocalCatalogMeta>(): succeeds exactly on the
concrete local facade. -/
def MetaDataObj.downcast_local : MetaDataObj → Option LocalCatalogMeta
  | .localMeta m => some m
  | .otherMeta _ => none

/-- The cluster-table source built for a native table. -/
structure ClusterTable where
  engine : Engine
  schema : TsKvTableSchema

/-- ClusterTable::new(engine, schema). -/
def ClusterTable.new (engine : Engine) (schema : TsKvTableSchema) :
    ClusterTable :=
  ⟨engine, schema⟩

/-- datafusion ListingTableConfig, as built by the source: path, then
options, then file schema. -/
structure ListingTableConfig where
  table_path : ListingTableUrl
  options : Option ListingOptions
  file_schema : Option ArrowSchema

/-- ListingTableConfig::new(path). -/
def ListingTableConfig.new (table_path : ListingTableUrl) :
    ListingTableConfig :=
  ⟨table_path, none, none⟩

/-- ListingTableConfig::with_listing_options. -/
def ListingTableConfig.with_listing_options (c : ListingTableConfig)
    (o : ListingOptions) : ListingTableConfig :=
  { c with options := some o }

/-- ListingTableConfig::with_schema. -/
def ListingTableConfig.with_schema (c : ListingTableConfig) (s : ArrowSchema) :
    ListingTableConfig :=
  { c with file_schema := some s }

/-- The listing-table source built for an external table. -/
structure ListingTable where
  config : ListingTableConfig

/-- The planner's table-source abstraction: the two sources the adapter can
produce. -/
inductive TableSourceImpl where
  | cluster (t : ClusterTable)
  | listing (t : ListingTable)

/-- The external datafusion entry points the adapter calls
(ListingTableUrl::parse and ListingTable::try_new), abstracted as
parameters. -/
structure ExternalLibs where
  parse_url : String → Except DataFusionError ListingTableUrl
  listing_try_new : ListingTableConfig → Except DataFusionError ListingTable

/-- The planner adapter of metadata.rs. -/
structure MetadataProvider where
  meta : MetaDataObj

/-- MetadataProvider::new(meta). -/
def MetadataProvider.new (meta : MetaDataObj) : MetadataProvider :=
  ⟨meta⟩

/-- get_table_provider of metadata.rs: look the table up through the facade;
on a hit, downcast to the concrete local facade and dispatch on the schema
variant; on a miss, produce a Plan error carrying the resolved triple. -/
def MetadataProvider.get_table_provider (p : MetadataProvider)
    (libs : ExternalLibs) (name : TableReference) :
    Except DataFusionError TableSourceImpl :=
  match p.meta.table name with
  | .ok table =>
    match p.meta.downcast_local with
    | none => .error (.Plan "failed to get meta data")
    | some local_catalog_meta =>
      match table with
      | .TsKvTableSchema schema =>
        .ok (.cluster (ClusterTable.new local_catalog_meta.engine schema))
      | .ExternalTableSchema schema => do
        let table_path ← libs.parse_url schema.location
        let options ← schema.table_options
        let config := ((ListingTableConfig.new table_path).with_listing_options
          options).with_schema schema.schema
        let t ← libs.listing_try_new config
        pure (.listing t)
  | .error _ =>
    let resolved_name := name.resolve p.meta.catalog_name p.meta.schema_name
    .error (.Plan ("failed to resolve user:" ++ resolved_name.catalog ++
      "  db: " ++ resolved_name.schema ++ ", table: " ++ resolved_name.table))

/-- A record batch (arrow type, abstracted: its schema plus an opaque
payload). -/
structure RecordBatch where
  schema : ArrowSchema
  payload : Nat

/-- datafusion ExecutionPlanMetricsSet::new(). -/
structure ExecutionPlanMetricsSet where
  unit : Unit

/-- ExecutionPlanMetricsSet::new(). -/
def ExecutionPlanMetricsSet.new : ExecutionPlanMetricsSet := ⟨()⟩

/-- datafusion MemTrackingMetrics, abstracted to the reserved byte count it
reports. -/
structure MemTrackingMetrics where
  mem_used : Nat

/-- MemTrackingMetrics::new(metrics, part): created without a memory
reservation, so it reports zero reserved bytes. -/
def MemTrackingMetrics.new (_metrics : ExecutionPlanMetricsSet) (_part : Nat) :
    MemTrackingMetrics :=
  ⟨0⟩

/-- datafusion SizedRecordBatchStream, abstracted: the stream yields exactly
its batch list, in order, and then terminates. -/
structure SizedRecordBatchStream where
  schema : ArrowSchema
  batches : List RecordBatch
  metrics : MemTrackingMetrics

/-- SizedRecordBatchStream::new(schema, batches, metrics). -/
def SizedRecordBatchStream.new (schema : ArrowSchema)
    (batches : List RecordBatch) (metrics : MemTrackingMetrics) :
    SizedRecordBatchStream :=
  ⟨schema, batches, metrics⟩

/-- The yield sequence of the stream. -/
def SizedRecordBatchStream.toList (s : SizedRecordBatchStream) :
    List RecordBatch :=
  s.batches

/-- stream_from_batches of metadata.rs.  The source indexes batches[0]
unchecked; head? is that index-zero access, and the none result models the
index panic on an empty list. -/
def stream_from_batches (batches : List RecordBatch) :
    Option SizedRecordBatchStream :=
  match batches.head? with
  | none => none
  | some b =>
    some (SizedRecordBatchStream.new b.schema batches
      (MemTrackingMetrics.new ExecutionPlanMetricsSet.new 0))

/-- The facades reachable from new_with_default by the facade-producing
operations other than with_catalog. -/
inductive ReachableNoCatalogSwitch : LocalCatalogMeta → Prop where
  | boot : ∀ engine func_manager m,
      LocalCatalogMeta.new_with_default engine func_manager = .ok m →
      ReachableNoCatalogSwitch m
  | withDb : ∀ m x, ReachableNoCatalogSwitch m →
      ReachableNoCatalogSwitch (m.with_database x)
  | createDb : ∀ m n s m2, ReachableNoCatalogSwitch m →
      m.create_database n s = .ok m2 → ReachableNoCatalogSwitch m2
  | createTbl : ∀ m n s m2, ReachableNoCatalogSwitch m →
      m.create_table n s = .ok m2 → ReachableNoCatalogSwitch m2
  | dropTbl : ∀ m n m2, ReachableNoCatalogSwitch m →
      m.drop_table n = .ok m2 → ReachableNoCatalogSwitch m2
  | dropDb : ∀ m n m2, ReachableNoCatalogSwitch m →
      m.drop_database n = .ok m2 → ReachableNoCatalogSwitch m2
  | addCol : ∀ m n c m2, ReachableNoCatalogSwitch m →
      m.alter_table_add_column n c = .ok m2 → ReachableNoCatalogSwitch m2
  | alterCol : ∀ m n cn c m2, ReachableNoCatalogSwitch m →
      m.alter_table_alter_column n cn c = .ok m2 → ReachableNoCatalogSwitch m2
  | dropCol : ∀ m n cn m2, ReachableNoCatalogSwitch m →
      m.alter_table_drop_column n cn = .ok m2 → ReachableNoCatalogSwitch m2

/-- Substring containment, witnessed by an explicit decomposition. -/
def str_contains (s sub : String) : Prop :=
  ∃ a b, s = a ++ (sub ++ b)

/-- A storage engine with no pre-existing databases. -/
def engine0 : Engine := ⟨[]⟩

/-- An empty function registry. -/
def fm0 : FuncMetaManager := ⟨[], []⟩

/-- The default database object created by the bootstrap over engine0. -/
def dbPublic : Database :=
  Database.new DEFAULT_DATABASE engine0 (DatabaseSchema.new DEFAULT_DATABASE)

/-- The facade produced by new_with_default over engine0. -/
def m0 : LocalCatalogMeta :=
  { catalog_name := DEFAULT_CATALOG
    database_name := DEFAULT_DATABASE
    engine := engine0
    catalog := ⟨[(DEFAULT_DATABASE, dbPublic)]⟩
    func_manager := fm0 }

/-- A storage engine in which the default database already pre-exists. -/
def eng1 : Engine := ⟨[(DEFAULT_DATABASE, DatabaseSchema.new DEFAULT_DATABASE)]⟩

/-- Example columns for the drop-column scenario. -/
def colTime : TableColumn := ⟨"time", "timestamp", ColumnRole.time⟩

/-- A first field column. -/
def colF1 : TableColumn := ⟨"f1", "double", ColumnRole.field⟩

/-- A second, droppable field column. -/
def colC : TableColumn := ⟨"c", "double", ColumnRole.field⟩

/-- A native table t of database db with a time column and two field columns. -/
def tskvBug : TsKvTableSchema := ⟨"db", "t", [colTime, colF1, colC]⟩

/-- The database db holding table t. -/
def dbBug : Database :=
  { name := "db", engine := engine0, db_schema := DatabaseSchema.new "db",
    tables := [("t", TableSchema.TsKvTableSchema tskvBug)] }

/-- A facade whose registry holds both the default database and db. -/
def mBug : LocalCatalogMeta :=
  { m0 with catalog := ⟨[(DEFAULT_DATABASE, dbPublic), ("db", dbBug)]⟩ }

/-- The database db after a correctly addressed drop of column c from t. -/
def dbBugDropped : Database :=
  { dbBug with tables :=
      [("t", TableSchema.TsKvTableSchema ⟨"db", "t", [colTime, colF1]⟩)] }

/-- Concrete external entry points that always succeed. -/
def libs0 : ExternalLibs :=
  ⟨fun s => .ok ⟨s⟩, fun c => .ok ⟨c⟩⟩

/-- An arbitrary non-local MetaData implementation whose lookup succeeds. -/
def other0 : OtherMeta :=
  ⟨fun _ => .ok (.TsKvTableSchema tskvBug), "c0", "d0"⟩

theorem except_map_ok_inv {ε α β : Type} (f : α → β) (e : Except ε α) (b : β)
    (h : e.map f = Except.ok b) : ∃ a, e = Except.ok a ∧ b = f a := by
  cases e with
  | ok a =>
    simp only [Except.map] at h
    exact ⟨a, rfl, (by injection h with h2; exact h2.symm)⟩
  | error err =>
    simp only [Except.map] at h
    exact Except.noConfusion h

theorem create_database_ok_fields (m : LocalCatalogMeta) (n : String)
    (s : DatabaseSchema) (m2 : LocalCatalogMeta)
    (h : m.create_database n s = .ok m2) :
    m2.catalog_name = m.catalog_name ∧ m2.database_name = m.database_name ∧
    m2.engine = m.engine ∧ m2.func_manager = m.func_manager := by
  simp only [LocalCatalogMeta.create_database] at h
  obtain ⟨c, _, hb⟩ := except_map_ok_inv _ _ _ h
  subst hb
  exact ⟨rfl, rfl, rfl, rfl⟩

theorem create_table_ok_catalog_name (m : LocalCatalogMeta) (n : String)
    (ts : TableSchema) (m2 : LocalCatalogMeta)
    (h : m.create_table n ts = .ok m2) : m2.catalog_name = m.catalog_name := by
  simp only [LocalCatalogMeta.create_table] at h
  split at h
  · exact Except.noConfusion h
  · injection h with h2
    subst h2
    rfl

theorem drop_table_ok_catalog_name (m : LocalCatalogMeta) (n : String)
    (m2 : LocalCatalogMeta) (h : m.drop_table n = .ok m2) :
    m2.catalog_name = m.catalog_name := by
  simp only [LocalCatalogMeta.drop_table] at h
  split at h
  · exact Except.noConfusion h
  · obtain ⟨db2, _, hb⟩ := except_map_ok_inv _ _ _ h
    subst hb
    rfl

theorem drop_database_ok_catalog_name (m : LocalCatalogMeta) (n : String)
    (m2 : LocalCatalogMeta) (h : m.drop_database n = .ok m2) :
    m2.catalog_name = m.catalog_name := by
  simp only [LocalCatalogMeta.drop_database] at h
  obtain ⟨c, _, hb⟩ := except_map_ok_inv _ _ _ h
  subst hb
  rfl

theorem add_column_ok_catalog_name (m : LocalCatalogMeta) (n : String)
    (c : TableColumn) (m2 : LocalCatalogMeta)
    (h : m.alter_table_add_column n c = .ok m2) :
    m2.catalog_name = m.catalog_name := by
  simp only [LocalCatalogMeta.alter_table_add_column] at h
  split at h
  · exact Except.noConfusion h
  · obtain ⟨db2, _, hb⟩ := except_map_ok_inv _ _ _ h
    subst hb
    rfl

theorem alter_column_ok_catalog_name (m : LocalCatalogMeta) (n cn : String)
    (c : TableColumn) (m2 : LocalCatalogMeta)
    (h : m.alter_table_alter_column n cn c = .ok m2) :
    m2.catalog_name = m.catalog_name := by
  simp only [LocalCatalogMeta.alter_table_alter_column] at h
  split at h
  · exact Except.noConfusion h
  · obtain ⟨db2, _, hb⟩ := except_map_ok_inv _ _ _ h
    subst hb
    rfl

theorem drop_column_ok_catalog_name (m : LocalCatalogMeta) (n cn : String)
    (m2 : LocalCatalogMeta) (h : m.alter_table_drop_column n cn = .ok m2) :
    m2.catalog_name = m.catalog_name := by
  simp only [LocalCatalogMeta.alter_table_drop_column] at h
  split at h
  · exact Except.noConfusion h
  · obtain ⟨db2, _, hb⟩ := except_map_ok_inv _ _ _ h
    subst hb
    rfl

theorem new_with_default_ok_context (eng : Engine) (f : FuncMetaManager)
    (m : LocalCatalogMeta)
    (h : LocalCatalogMeta.new_with_default eng f = .ok m) :
    m.catalog_name = DEFAULT_CATALOG ∧ m.database_name = DEFAULT_DATABASE := by
  simp only [LocalCatalogMeta.new_with_default] at h
  split at h
  · next m2 hm2 =>
    injection h with h2
    subst h2
    have hf := create_database_ok_fields _ _ _ _ hm2
    exact ⟨hf.1, hf.2.1⟩
  · injection h with h2
    subst h2
    exact ⟨rfl, rfl⟩
  · exact Except.noConfusion h

theorem reachable_catalog_name (m : LocalCatalogMeta)
    (h : ReachableNoCatalogSwitch m) : m.catalog_name = DEFAULT_CATALOG := by
  induction h with
  | boot eng f m hm => exact (new_with_default_ok_context eng f m hm).1
  | withDb m x hm ih => exact ih
  | createDb m n s m2 hm hc ih =>
    rw [(create_database_ok_fields m n s m2 hc).1]
    exact ih
  | createTbl m n s m2 hm hc ih =>
    rw [create_table_ok_catalog_name m n s m2 hc]
    exact ih
  | dropTbl m n m2 hm hc ih =>
    rw [drop_table_ok_catalog_name m n m2 hc]
    exact ih
  | dropDb m n m2 hm hc ih =>
    rw [drop_database_ok_catalog_name m n m2 hc]
    exact ih
  | addCol m n c m2 hm hc ih =>
    rw [add_column_ok_catalog_name m n c m2 hc]
    exact ih
  | alterCol m n cn c m2 hm hc ih =>
    rw [alter_column_ok_catalog_name m n cn c m2 hc]
    exact ih
  | dropCol m n cn m2 hm hc ih =>
    rw [drop_column_ok_catalog_name m n cn m2 hc]
    exact ih

theorem create_database_error_is_dae (m : LocalCatalogMeta) (n : String)
    (s : DatabaseSchema) (e : MetadataError)
    (h : m.create_database n s = .error e) :
    e = .DatabaseAlreadyExists n := by
  simp only [LocalCatalogMeta.create_database, UserCatalog.register_schema] at h
  split at h <;> simp only [Except.map] at h
  · injection h with h2
    exact h2.symm
  · exact Except.noConfusion h

/-- C1: table(ref) resolves the reference against the current context and
returns DatabaseNotExists exactly when the resolved database is absent from
the registry, TableNotExists exactly when the resolved database is present
but the resolved table is absent, and the catalog component of the resolved
name is never used as a lookup key (replacing it changes nothing). -/
theorem table_lookup_error_contract (m : LocalCatalogMeta) (r : TableReference) :
    (m.table r = .error (.DatabaseNotExists (m.resolve_ref r).schema)
      ↔ m.catalog.schema (m.resolve_ref r).schema = none)
  ∧ (∀ db, m.catalog.schema (m.resolve_ref r).schema = some db →
      (m.table r = .error (.TableNotExists (m.resolve_ref r).table)
        ↔ db.table (m.resolve_ref r).table = none))
  ∧ (∀ c, m.table (TableReference.full c (m.resolve_ref r).schema
      (m.resolve_ref r).table) = m.table r) := by
  refine ⟨?_, ?_, ?_⟩
  · cases hcs : m.catalog.schema (m.resolve_ref r).schema with
    | none => simp [LocalCatalogMeta.table, hcs]
    | some db =>
      cases ht : db.table (m.resolve_ref r).table with
      | none => simp [LocalCatalogMeta.table, hcs, ht]
      | some s => simp [LocalCatalogMeta.table, hcs, ht]
  · intro db hdb
    cases ht : db.table (m.resolve_ref r).table with
    | none => simp [LocalCatalogMeta.table, hdb, ht]
    | some s => simp [LocalCatalogMeta.table, hdb, ht]
  · intro c
    cases r <;> rfl

/-- Witness for C1 at a concrete facade and reference. -/
theorem table_lookup_error_contract_witness :
    m0.table (TableReference.bare "missing")
      = .error (.TableNotExists "missing")
    ↔ dbPublic.table "missing" = none :=
  (table_lookup_error_contract m0 (TableReference.bare "missing")).2.1
    dbPublic rfl

/-- C2 (code bug): on the qualified reference db.t, alter_table_drop_column
passes the unresolved input string to the database-level drop, so the drop
fails with TableNotExists for the name db.t although the resolved table t
exists in the resolved database and a correctly addressed drop succeeds. -/
theorem alter_table_drop_column_unresolved_input :
    mBug.alter_table_drop_column "db.t" "c"
      = .error (.TableNotExists "db.t")
  ∧ dbBug.table "t" = some (.TsKvTableSchema tskvBug)
  ∧ dbBug.table_drop_column "t" "c" = .ok dbBugDropped :=
  ⟨rfl, rfl, rfl⟩

/-- C3: new_with_default sets the context to the default catalog and
database and always succeeds (hence two successive calls on the same engine
both succeed); when the bootstrap create_database call fails, a
DatabaseAlreadyExists failure is swallowed and any other failure would be
returned as-is. -/
theorem new_with_default_contract (eng : Engine) (f : FuncMetaManager) :
    (∃ m, LocalCatalogMeta.new_with_default eng f = .ok m
      ∧ m.catalog_name = DEFAULT_CATALOG
      ∧ m.database_name = DEFAULT_DATABASE)
  ∧ (∀ e, (LocalCatalogMeta.initial eng f).create_database DEFAULT_DATABASE
      (DatabaseSchema.new DEFAULT_DATABASE) = .error e →
      LocalCatalogMeta.new_with_default eng f =
        (match e with
         | .DatabaseAlreadyExists _ => .ok (LocalCatalogMeta.initial eng f)
         | _ => .error e)) := by
  have hdb : (LocalCatalogMeta.initial eng f).database_name = DEFAULT_DATABASE := rfl
  constructor
  · cases hc : (LocalCatalogMeta.initial eng f).create_database
        DEFAULT_DATABASE (DatabaseSchema.new DEFAULT_DATABASE) with
    | ok m2 =>
      have hf := create_database_ok_fields _ _ _ _ hc
      refine ⟨m2, ?_, hf.1, hf.2.1⟩
      simp only [LocalCatalogMeta.new_with_default, hdb]
      rw [hc]
    | error e =>
      have he := create_database_error_is_dae _ _ _ _ hc
      subst he
      refine ⟨LocalCatalogMeta.initial eng f, ?_, rfl, rfl⟩
      simp only [LocalCatalogMeta.new_with_default, hdb]
      rw [hc]
  · intro e he
    simp only [LocalCatalogMeta.new_with_default, hdb]
    rw [he]
    cases e <;> rfl

/-- Witness for C3: over an engine where the default database pre-exists,
the bootstrap create_database fails with DatabaseAlreadyExists and
new_with_default still succeeds. -/
theorem new_with_default_contract_witness :
    LocalCatalogMeta.new_with_default eng1 fm0
      = .ok (LocalCatalogMeta.initial eng1 fm0) :=
  (new_with_default_contract eng1 fm0).2
    (.DatabaseAlreadyExists DEFAULT_DATABASE) rfl

/-- C4 counterexample: the claim fails as stated.  From the bootstrapped
facade, a with_catalog override makes a bare reference resolve to a catalog
other than DEFAULT_CATALOG, and even without with_catalog a fully qualified
reference keeps its own catalog component. -/
theorem resolved_catalog_default_cex :
    LocalCatalogMeta.new_with_default engine0 fm0 = .ok m0
  ∧ ((m0.with_catalog "othercat").resolve_ref
      (TableReference.bare "t")).catalog ≠ DEFAULT_CATALOG
  ∧ (m0.resolve_ref
      (TableReference.full "othercat" "public" "t")).catalog
      ≠ DEFAULT_CATALOG :=
  ⟨rfl, by decide, by decide⟩

/-- C4 (amended): for every facade reachable from new_with_default by the
facade operations other than with_catalog, and for every reference that does
not carry an explicit catalog component, the catalog component of the
resolved name produced during table lookup equals DEFAULT_CATALOG. -/
theorem resolved_catalog_default_amended (m : LocalCatalogMeta)
    (h : ReachableNoCatalogSwitch m) (r : TableReference)
    (hr : r.hasCatalog = false) :
    (m.resolve_ref r).catalog = DEFAULT_CATALOG := by
  have hc := reachable_catalog_name m h
  cases r with
  | bare t =>
    simpa [LocalCatalogMeta.resolve_ref, TableReference.resolve] using hc
  | schemaTable d t =>
    simpa [LocalCatalogMeta.resolve_ref, TableReference.resolve] using hc
  | full c d t => simp [TableReference.hasCatalog] at hr

/-- Witness for C4 (amended) at the bootstrapped facade and a bare
reference. -/
theorem resolved_catalog_default_amended_witness :
    (m0.resolve_ref (TableReference.bare "t")).catalog = DEFAULT_CATALOG :=
  resolved_catalog_default_amended m0
    (ReachableNoCatalogSwitch.boot engine0 fm0 m0 rfl)
    (TableReference.bare "t") rfl

/-- C5: with_database(x) answers x as its schema name, with_catalog(y)
answers y as its catalog name, and both derived facades keep the identical
underlying catalog registry; the original facade is a value and its own
context strings are untouched. -/
theorem context_shadowing (m : LocalCatalogMeta) (x y : String) :
    (m.with_database x).schema_name = x
  ∧ (m.with_catalog y).catalog_name = y
  ∧ (m.with_database x).catalog = m.catalog
  ∧ (m.with_catalog y).catalog = m.catalog :=
  ⟨rfl, rfl, rfl, rfl⟩

/-- C6: get_table_provider dispatches exhaustively on the schema variant: a
native schema yields a cluster-table source over the facade's engine handle
and the schema; an external schema parses the location URL, derives the
listing options, and builds the listing source from the resulting
configuration, with parse and derivation failures surfaced as planner
errors. -/
theorem get_table_provider_dispatch (libs : ExternalLibs)
    (m : LocalCatalogMeta) (r : TableReference) :
    (∀ s, m.table r = .ok (.TsKvTableSchema s) →
      (MetadataProvider.new (.localMeta m)).get_table_provider libs r
        = .ok (.cluster (ClusterTable.new m.engine s)))
  ∧ (∀ s e, m.table r = .ok (.ExternalTableSchema s) →
      libs.parse_url s.location = .error e →
      (MetadataProvider.new (.localMeta m)).get_table_provider libs r
        = .error e)
  ∧ (∀ s u e, m.table r = .ok (.ExternalTableSchema s) →
      libs.parse_url s.location = .ok u →
      s.table_options = .error e →
      (MetadataProvider.new (.localMeta m)).get_table_provider libs r
        = .error e)
  ∧ (∀ s u o, m.table r = .ok (.ExternalTableSchema s) →
      libs.parse_url s.location = .ok u →
      s.table_options = .ok o →
      (MetadataProvider.new (.localMeta m)).get_table_provider libs r
        = (libs.listing_try_new (((ListingTableConfig.new u).with_listing_options
            o).with_schema s.schema)).map TableSourceImpl.listing) := by
  refine ⟨?_, ?_, ?_, ?_⟩
  · intro s h
    simp [MetadataProvider.get_table_provider, MetadataProvider.new,
      MetaDataObj.table, MetaDataObj.downcast_local, h]
  · intro s e h hp
    simp [MetadataProvider.get_table_provider, MetadataProvider.new,
      MetaDataObj.table, MetaDataObj.downcast_local, h, hp,
      ExternalTableSchema.table_options, Except.bind, bind]
  · intro s u e h hp ho
    simp only [ExternalTableSchema.table_options] at ho
    simp [MetadataProvider.get_table_provider, MetadataProvider.new,
      MetaDataObj.table, MetaDataObj.downcast_local, h, hp, ho,
      ExternalTableSchema.table_options, Except.bind, bind]
  · intro s u o h hp ho
    simp only [ExternalTableSchema.table_options] at ho
    cases hl : libs.listing_try_new (((ListingTableConfig.new u).with_listing_options
        o).with_schema s.schema) with
    | ok t =>
      simp [MetadataProvider.get_table_provider, MetadataProvider.new,
        MetaDataObj.table, MetaDataObj.downcast_local, h, hp, ho, hl,
        ExternalTableSchema.table_options, Except.bind, bind, Except.map,
        pure, Except.pure]
    | error e2 =>
      simp [MetadataProvider.get_table_provider, MetadataProvider.new,
        MetaDataObj.table, MetaDataObj.downcast_local, h, hp, ho, hl,
        ExternalTableSchema.table_options, Except.bind, bind, Except.map,
        pure, Except.pure]

/-- Witness for C6 at a concrete facade whose lookup finds a native table. -/
theorem get_table_provider_dispatch_witness :
    (MetadataProvider.new (.localMeta mBug)).get_table_provider libs0
      (TableReference.schemaTable "db" "t")
      = .ok (.cluster (ClusterTable.new mBug.engine tskvBug)) :=
  (get_table_provider_dispatch libs0 mBug
    (TableReference.schemaTable "db" "t")).1 tskvBug rfl

/-- C7: whenever the facade's table lookup fails, get_table_provider
produces a Plan error whose message contains the resolved catalog name, the
resolved database name, and the resolved table name of the reference. -/
theorem get_table_provider_miss_message (libs : ExternalLibs)
    (meta : MetaDataObj) (r : TableReference) (e : MetadataError)
    (h : meta.table r = .error e) :
    ∃ msg, (MetadataProvider.new meta).get_table_provider libs r
        = .error (.Plan msg)
      ∧ str_contains msg (r.resolve meta.catalog_name meta.schema_name).catalog
      ∧ str_contains msg (r.resolve meta.catalog_name meta.schema_name).schema
      ∧ str_contains msg (r.resolve meta.catalog_name meta.schema_name).table := by
  refine ⟨"failed to resolve user:" ++
    (r.resolve meta.catalog_name meta.schema_name).catalog ++
    "  db: " ++ (r.resolve meta.catalog_name meta.schema_name).schema ++
    ", table: " ++ (r.resolve meta.catalog_name meta.schema_name).table,
    ?_, ?_, ?_, ?_⟩
  · simp [MetadataProvider.get_table_provider, MetadataProvider.new, h]
  · refine ⟨"failed to resolve user:",
      "  db: " ++ ((r.resolve meta.catalog_name meta.schema_name).schema ++
        (", table: " ++ (r.resolve meta.catalog_name meta.schema_name).table)),
      ?_⟩
    simp [String.append_assoc]
  · refine ⟨"failed to resolve user:" ++
      ((r.resolve meta.catalog_name meta.schema_name).catalog ++ "  db: "),
      ", table: " ++ (r.resolve meta.catalog_name meta.schema_name).table, ?_⟩
    simp [String.append_assoc]
  · refine ⟨"failed to resolve user:" ++
      ((r.resolve meta.catalog_name meta.schema_name).catalog ++
        ("  db: " ++ ((r.resolve meta.catalog_name meta.schema_name).schema ++
          ", table: "))), "", ?_⟩
    simp [String.append_assoc, String.append_empty]

/-- Witness for C7 at a concrete facade and a missing table. -/
theorem get_table_provider_miss_message_witness :
    ∃ msg, (MetadataProvider.new (.localMeta m0)).get_table_provider libs0
        (TableReference.bare "unknown") = .error (.Plan msg)
      ∧ str_contains msg DEFAULT_CATALOG
      ∧ str_contains msg DEFAULT_DATABASE
      ∧ str_contains msg "unknown" :=
  get_table_provider_miss_message libs0 (.localMeta m0)
    (TableReference.bare "unknown") (.TableNotExists "unknown") rfl

/-- C8: on a non-empty batch list, stream_from_batches returns a stream whose
schema is the first batch's schema, which yields the batches in their given
order and then terminates, and whose memory accounting reports zero reserved
bytes; the unchecked index of the first batch is in bounds, while on an empty
list the source's index panic is modelled as the absent result. -/
theorem stream_from_batches_contract (b0 : RecordBatch)
    (bs : List RecordBatch) :
    (∃ s, stream_from_batches (b0 :: bs) = some s
      ∧ s.schema = b0.schema
      ∧ s.toList = b0 :: bs
      ∧ s.metrics.mem_used = 0)
  ∧ 0 < (b0 :: bs).length
  ∧ stream_from_batches ([] : List RecordBatch) = none := by
  refine ⟨⟨SizedRecordBatchStream.new b0.schema (b0 :: bs)
    (MemTrackingMetrics.new ExecutionPlanMetricsSet.new 0),
    rfl, rfl, rfl, rfl⟩, ?_, rfl⟩
  simp

/-- C9: with_database changes only the database context string and
with_catalog changes only the catalog context string; every other component
of the derived facade (the engine, the catalog registry, the function
registry, and the untouched context string) is shared with the original. -/
theorem with_context_frame (m : LocalCatalogMeta) (x y : String) :
    (m.with_database x).catalog_name = m.catalog_name
  ∧ (m.with_database x).engine = m.engine
  ∧ (m.with_database x).catalog = m.catalog
  ∧ (m.with_database x).func_manager = m.func_manager
  ∧ (m.with_database x).database_name = x
  ∧ (m.with_catalog y).database_name = m.database_name
  ∧ (m.with_catalog y).engine = m.engine
  ∧ (m.with_catalog y).catalog = m.catalog
  ∧ (m.with_catalog y).func_manager = m.func_manager
  ∧ (m.with_catalog y).catalog_name = y :=
  ⟨rfl, rfl, rfl, rfl, rfl, rfl, rfl, rfl, rfl, rfl⟩

/-- C10: when the provider's MetaData object is not concretely a
LocalCatalogMeta, get_table_provider answers the Plan error "failed to get
meta data" even though the table lookup itself succeeded. -/
theorem get_table_provider_requires_local (libs : ExternalLibs)
    (o : OtherMeta) (r : TableReference) (ts : TableSchema)
    (h : o.table_fn r = .ok ts) :
    (MetadataProvider.new (.otherMeta o)).get_table_provider libs r
      = .error (.Plan "failed to get meta data") := by
  simp [MetadataProvider.get_table_provider, MetadataProvider.new,
    MetaDataObj.table, MetaDataObj.downcast_local, h]

/-- Witness for C10 at a concrete non-local implementation. -/
theorem get_table_provider_requires_local_witness :
    (MetadataProvider.new (.otherMeta other0)).get_table_provider libs0
      (TableReference.bare "t")
      = .error (.Plan "failed to get meta data") :=
  get_table_provider_requires_local libs0 other0 (TableReference.bare "t")
    (.TsKvTableSchema tskvBug) rfl

end CnosdbMeta
